import Mathlib

/-!
Verification of the document ingestion and analysis pipeline of the
ski-racer backend (`backend/app/services/document_service.py`,
`backend/app/repositories/document_repository.py`,
`backend/app/services/bedrock_service.py`, `backend/app/models.py`).

The service layer is embedded as pure Lean functions over an explicit
system state (an association list for the storage backend and a list of
rows for the database).  External effects whose outcome the Python code
cannot control (disk writes, presigned-URL generation, the Bedrock call)
are passed in as explicit oracle values.

Two Python-dynamic-dispatch facts matter for the service layer and are
embedded explicitly, because the repository and Bedrock files in the
source tree are an older generation than the service:

* `DocumentRepository.create` (document_repository.py line 33) declares
  the parameters `racer_id, filename, file_path, file_type, file_size,
  analysis`; the service calls it with an additional `status` keyword
  (document_service.py lines 159-167 and 273-281).  In Python such a call
  raises `TypeError` before the body runs.

* `DocumentRepository` defines only `__init__`, `create`, `get_by_racer`,
  `get_by_id` and `delete`; the service invokes `self.repository.update`
  (document_service.py line 202), which raises `AttributeError`.

* `BedrockService.analyze_ski_form` (bedrock_service.py line 49) declares
  `file_path, file_type, filename`; the service calls it with a
  `file_bytes` keyword (document_service.py lines 377-381), which raises
  `TypeError` (and `TypeError` is not `BedrockServiceError`, so the
  `except BedrockServiceError` clause does not catch it).

These call-compatibility checks are modelled by comparing the keyword
list of each call site with the parameter list of the callee, exactly as
Python does.
-/

/-- Embedding of Python `str.lower` for a single character: ASCII
uppercase letters (codes 65-90) are shifted to lowercase, everything
else is kept. -/
def lowerChar (c : Char) : Char :=
  if 65 ≤ c.toNat ∧ c.toNat ≤ 90 then Char.ofNat (c.toNat + 32) else c

/-- Embedding of Python `str.lower` (ASCII range, which covers every
string the service compares against its allow-lists). -/
def pyLower (s : String) : String :=
  String.mk (s.data.map lowerChar)

/-- `ALLOWED_FILE_TYPES` from document_service.py lines 33-38: MIME type
to allowed extensions. -/
def ALLOWED_FILE_TYPES : List (String × List String) :=
  [("video/mp4", [".mp4"]),
   ("video/quicktime", [".mov"]),
   ("image/jpeg", [".jpg", ".jpeg"]),
   ("image/png", [".png"])]

/-- `ALLOWED_EXTENSIONS` (document_service.py line 39): the extensions of
`ALLOWED_FILE_TYPES`, flattened. -/
def ALLOWED_EXTENSIONS : List String :=
  (ALLOWED_FILE_TYPES.map Prod.snd).flatten

/-- The MIME-type keys of `ALLOWED_FILE_TYPES` (membership test
`file_type.lower() in ALLOWED_FILE_TYPES` in the Python source). -/
def allowedTypeKeys : List String :=
  ALLOWED_FILE_TYPES.map Prod.fst

/-- The browser-variant content types accepted by both validation sites
(document_service.py lines 127 and 355). -/
def BROWSER_CT_VARIANTS : List String :=
  ["image/jpg", "image/pjpeg", "video/x-m4v"]

/-- `MAX_FILE_SIZE` (document_service.py line 40). -/
def MAX_FILE_SIZE : Nat := 50 * 1024 * 1024

/-- `PRESIGNED_EXPIRY` (document_service.py line 43). -/
def PRESIGNED_EXPIRY : Nat := 900

/-- `LOCAL_UPLOAD_DIR` (document_service.py line 46). -/
def LOCAL_UPLOAD_DIR : String := "uploads/documents"

/-- The exception kinds that can escape the service layer: the service's
own exception classes (document_service.py lines 49-66) plus the two
Python-level errors produced by the stale collaborator interfaces. -/
inductive SvcError where
  | validationError (msg : String)
  | notFoundError (msg : String)
  | fileStorageError (msg : String)
  | documentServiceError (msg : String)
  | pyTypeError (msg : String)
  | pyAttributeError (msg : String)
deriving DecidableEq, Repr

/-- A row of the `documents` table, from the `Document` model
(models.py lines 64-97).  Note the model has no `status` column. -/
structure Doc where
  id : String
  racer_id : String
  filename : String
  file_path : String
  file_type : String
  file_size : Nat
  analysis : Option String
  uploaded_at : Nat
deriving DecidableEq, Repr

/-- The file argument of the direct upload endpoint.  Python treats a
`None` and an empty content type the same way (both are falsy), so the
absent content type is modelled as `""`. -/
structure UploadFile where
  filename : String
  content_type : String
  content : List Nat
deriving DecidableEq, Repr

/-- Combined state of the storage backend (key to bytes) and the
documents table. -/
structure SysState where
  storage : List (String × List Nat)
  db : List Doc
deriving DecidableEq, Repr

/-- Read bytes at a key (`get_object` / `Path.read_bytes`). -/
def storageGet (storage : List (String × List Nat)) (key : String) :
    Option (List Nat) :=
  (storage.find? (fun kv => kv.1 == key)).map Prod.snd

/-- Write bytes at a key, replacing any previous object. -/
def storagePut (storage : List (String × List Nat)) (key : String)
    (bytes : List Nat) : List (String × List Nat) :=
  (key, bytes) :: storage.eraseP (fun kv => kv.1 == key)

/-- Delete the object at a key; a no-op when the key is absent
(`delete_object` tolerates a missing key, the local branch checks
`exists()` first). -/
def storageDelete (storage : List (String × List Nat)) (key : String) :
    List (String × List Nat) :=
  storage.eraseP (fun kv => kv.1 == key)

/-- Python call-compatibility for keyword arguments: the call binds iff
every keyword names a declared parameter. -/
def kwargsAccepted (params kwargs : List String) : Bool :=
  kwargs.all (fun k => params.contains k)

/-- Descending order on upload timestamps (`order_by(uploaded_at.desc())`,
document_repository.py line 91). -/
def uploadedDesc (a b : Doc) : Prop :=
  b.uploaded_at ≤ a.uploaded_at

instance : DecidableRel uploadedDesc :=
  fun a b => inferInstanceAs (Decidable (b.uploaded_at ≤ a.uploaded_at))

instance : IsTotal Doc uploadedDesc :=
  ⟨fun a b => (Nat.le_total b.uploaded_at a.uploaded_at)⟩

instance : IsTrans Doc uploadedDesc :=
  ⟨fun _ _ _ hab hbc => Nat.le_trans hbc hab⟩

namespace DocumentRepository

/-- The parameter list of `DocumentRepository.create`
(document_repository.py lines 33-41), excluding `self`. -/
def createParams : List String :=
  ["racer_id", "filename", "file_path", "file_type", "file_size", "analysis"]

/-- The methods defined on `DocumentRepository`
(document_repository.py lines 24-131). -/
def methodNames : List String :=
  ["__init__", "create", "get_by_racer", "get_by_id", "delete"]

/-- `create` (document_repository.py lines 33-73): build a `Document` row
(id and timestamp come from the model defaults) and commit it. -/
def create (db : List Doc) (newId : String) (now : Nat)
    (racer_id filename file_path file_type : String) (file_size : Nat)
    (analysis : Option String) : List Doc × Doc :=
  let d : Doc :=
    { id := newId, racer_id := racer_id, filename := filename,
      file_path := file_path, file_type := file_type,
      file_size := file_size, analysis := analysis, uploaded_at := now }
  (db ++ [d], d)

/-- `get_by_racer` (document_repository.py lines 75-93): filter by racer,
order by upload date, most recent first.  The SQL ordering is embedded as
a stable sort of the filtered rows. -/
def get_by_racer (db : List Doc) (racer_id : String) : List Doc :=
  List.insertionSort uploadedDesc
    (db.filter (fun d => d.racer_id == racer_id))

/-- `get_by_id` (document_repository.py lines 95-107): first row with the
given id, if any. -/
def get_by_id (db : List Doc) (document_id : String) : Option Doc :=
  db.find? (fun d => d.id == document_id)

/-- `delete` (document_repository.py lines 109-131): look the row up;
return `false` when absent, otherwise remove it and return `true`. -/
def delete (db : List Doc) (document_id : String) : List Doc × Bool :=
  match get_by_id db document_id with
  | none => (db, false)
  | some _ => (db.eraseP (fun d => d.id == document_id), true)

end DocumentRepository

/-- The keyword list of the service's calls to `repository.create`
(document_service.py lines 159-167 and 273-281): both pass a `status`
keyword on top of the declared parameters. -/
def serviceCreateKwargs : List String :=
  ["racer_id", "filename", "file_path", "file_type", "file_size",
   "analysis", "status"]

/-- The parameter list of `BedrockService.analyze_ski_form`
(bedrock_service.py lines 49-54), excluding `self`. -/
def analyzeSkiFormParams : List String :=
  ["file_path", "file_type", "filename"]

/-- The keyword list of the service's call to `analyze_ski_form`
(document_service.py lines 377-381). -/
def analyzeCallKwargs : List String :=
  ["file_bytes", "file_type", "filename"]

/-- State of the Bedrock adapter: either construction failed and
`self.bedrock_service` is `None` (document_service.py lines 87-91), or it
is available with some behaviour of the external call, returning either
analysis text or the message of a raised `BedrockServiceError`. -/
inductive BedrockState where
  | unavailable
  | available (analyze : List Nat → String → String → Except String String)

/-- The placeholder returned when Bedrock is not configured
(document_service.py lines 371-375). -/
def BEDROCK_UNAVAILABLE_MSG : String :=
  "Analysis unavailable: AWS Bedrock is not configured. Please configure AWS credentials to enable AI-powered ski form analysis."

/-- The message of the `DocumentServiceError` raised when
`repository.create` fails; the wrapped exception is the `TypeError` from
the unexpected `status` keyword. -/
def RECORD_CREATE_ERROR_MSG : String :=
  "Failed to create document record: create() got an unexpected keyword argument status"

/-- `_run_bedrock_analysis` (document_service.py lines 367-384): return
the placeholder when the adapter is unavailable; otherwise call
`analyze_ski_form` with a `file_bytes` keyword.  A `BedrockServiceError`
would be converted to a degraded string, but any other exception (here
the `TypeError` from the keyword mismatch) escapes. -/
def run_bedrock_analysis (b : BedrockState) (file_bytes : List Nat)
    (file_type filename : String) : Except SvcError String :=
  match b with
  | .unavailable => .ok BEDROCK_UNAVAILABLE_MSG
  | .available analyze =>
    if kwargsAccepted analyzeSkiFormParams analyzeCallKwargs then
      match analyze file_bytes file_type filename with
      | .ok text => .ok text
      | .error e => .ok ("Analysis unavailable: " ++ e)
    else
      .error (.pyTypeError "analyze_ski_form() got an unexpected keyword argument file_bytes")

/-- The part of a filename after its last dot
(Python `filename.rsplit(".", 1)[1]` when a dot is present). -/
def extAfterLastDot (filename : String) : String :=
  String.mk ((filename.data.reverse.takeWhile (fun c => c ≠ '.')).reverse)

/-- `_get_file_extension` (document_service.py lines 361-365): lowercase
extension including the dot; `ValidationError` when the filename has no
dot. -/
def get_file_extension (filename : String) : Except SvcError String :=
  if filename.data.contains '.' then
    .ok ("." ++ pyLower (extAfterLastDot filename))
  else
    .error (.validationError ("Filename " ++ filename ++ " has no extension"))

/-- `validate_file` (document_service.py lines 340-359): extension must
be allow-listed (lowered a second time at this call site); the content
type, when present, must be an allow-listed type or a known browser
variant.  There is no check that extension and content type agree. -/
def validate_file (file : UploadFile) : Except SvcError Unit :=
  if file.filename = "" then
    .error (.validationError "No file provided for upload")
  else
    match get_file_extension file.filename with
    | .error e => .error e
    | .ok ext0 =>
      let ext := pyLower ext0
      if ALLOWED_EXTENSIONS.contains ext = false then
        .error (.validationError ("File type " ++ ext ++ " is not allowed"))
      else if file.content_type = "" then
        .ok ()
      else
        let ct := pyLower file.content_type
        if allowedTypeKeys.contains ct then .ok ()
        else if BROWSER_CT_VARIANTS.contains ct then .ok ()
        else .error (.validationError ("Content type " ++ ct ++ " is not allowed"))

/-- The result of `create_upload_url` (document_service.py lines
173-177). -/
structure UploadUrlResult where
  upload_url : String
  document_id : String
  s3_key : String
deriving DecidableEq, Repr

/-- Oracle for the effects of the direct upload path that the code does
not control: whether the disk write succeeds, whether the read-back for
analysis succeeds, and whether the rollback unlink succeeds. -/
structure DirectOracle where
  writeOk : Bool
  readBackOk : Bool
  unlinkOk : Bool
deriving DecidableEq, Repr

/-- `create_upload_url` (document_service.py lines 104-177).  `presign`
is the outcome of `generate_presigned_url` (a URL, or the message of a
`ClientError`); `keyUuid` is the `uuid4` used for the S3 key and `docId`
the id the model default would generate for the row.  Returns the final
state together with the result.  The call to `repository.create` passes
a `status` keyword that `create` does not declare, so when reached it
raises `TypeError`, caught by the surrounding `except Exception` and
re-raised as `DocumentServiceError`. -/
def create_upload_url (st : SysState) (presign : Except String String)
    (racer_id filename file_type : String) (file_size : Nat)
    (keyUuid docId : String) (now : Nat) :
    SysState × Except SvcError UploadUrlResult :=
  match get_file_extension filename with
  | .error e => (st, .error e)
  | .ok ext =>
    if ALLOWED_EXTENSIONS.contains ext = false then
      (st, .error (.validationError ("File type " ++ ext ++ " is not allowed")))
    else if (allowedTypeKeys.contains (pyLower file_type)
        || BROWSER_CT_VARIANTS.contains (pyLower file_type)) = false then
      (st, .error (.validationError ("Content type " ++ pyLower file_type ++ " is not allowed")))
    else if MAX_FILE_SIZE < file_size then
      (st, .error (.validationError ("File size (" ++ toString file_size ++ " bytes) exceeds the 50 MB limit.")))
    else
      let s3_key := "documents/" ++ keyUuid ++ ext
      match presign with
      | .error e =>
        (st, .error (.fileStorageError ("Failed to generate presigned upload URL: " ++ e)))
      | .ok upload_url =>
        if kwargsAccepted DocumentRepository.createParams serviceCreateKwargs then
          -- unreachable: `create` has no `status` parameter
          let (db2, doc) := DocumentRepository.create st.db docId now
            racer_id filename s3_key file_type file_size none
          ({ st with db := db2 },
            .ok { upload_url := upload_url, document_id := doc.id, s3_key := s3_key })
        else
          (st, .error (.documentServiceError RECORD_CREATE_ERROR_MSG))

/-- `upload_document` (document_service.py lines 226-289), the direct
(local-disk) mode: validate, write the bytes to disk under a generated
name, read them back for analysis (falling back to empty bytes), run the
Bedrock analysis with degradation, then create the record.  The record
creation passes a `status` keyword `create` does not declare, so when
reached it raises `TypeError`; the handler best-effort unlinks the
stored file and raises `DocumentServiceError`. -/
def upload_document (st : SysState) (o : DirectOracle) (b : BedrockState)
    (racer_id : String) (file : UploadFile) (keyUuid docId : String)
    (now : Nat) : SysState × Except SvcError Doc :=
  if file.filename = "" then
    (st, .error (.validationError "No file provided for upload"))
  else
    match validate_file file with
    | .error e => (st, .error e)
    | .ok _ =>
      match get_file_extension file.filename with
      | .error e => (st, .error e)
      | .ok ext =>
        let file_path := LOCAL_UPLOAD_DIR ++ "/" ++ keyUuid ++ ext
        let file_content := file.content
        let file_size := file_content.length
        if MAX_FILE_SIZE < file_size then
          (st, .error (.validationError ("File size (" ++ toString file_size ++ " bytes) exceeds the 50 MB limit.")))
        else if o.writeOk = false then
          (st, .error (.fileStorageError "Failed to store file to disk"))
        else
          let storage1 := storagePut st.storage file_path file_content
          let file_bytes :=
            if o.readBackOk then (storageGet storage1 file_path).getD []
            else []
          let ct :=
            if file.content_type = "" then "application/octet-stream"
            else file.content_type
          match run_bedrock_analysis b file_bytes ct file.filename with
          | .error e => ({ st with storage := storage1 }, .error e)
          | .ok analysis_text =>
            if kwargsAccepted DocumentRepository.createParams serviceCreateKwargs then
              -- unreachable: `create` has no `status` parameter
              let (db2, doc) := DocumentRepository.create st.db docId now
                racer_id file.filename file_path ct file_size (some analysis_text)
              ({ storage := storage1, db := db2 }, .ok doc)
            else
              let storage2 :=
                if o.unlinkOk then storageDelete storage1 file_path
                else storage1
              ({ st with storage := storage2 },
                .error (.documentServiceError RECORD_CREATE_ERROR_MSG))

/-- `get_document` (document_service.py lines 302-307). -/
def get_document (db : List Doc) (document_id : String) : Except SvcError Doc :=
  match DocumentRepository.get_by_id db document_id with
  | none => .error (.notFoundError ("Document not found with id: " ++ document_id))
  | some d => .ok d

/-- `get_documents` (document_service.py lines 295-300); the query
itself cannot fail in this model, so the `except` wrapper is not
represented. -/
def get_documents (db : List Doc) (racer_id : String) : List Doc :=
  DocumentRepository.get_by_racer db racer_id

/-- `analyze_document` (document_service.py lines 179-205): look the
record up, read the object from storage, run the analysis with
degradation, then call `self.repository.update` - an attribute the
repository class does not define, so the lookup raises
`AttributeError`.  The then-branch of the method-existence test is
modelled from the spec (update `analysisText` and return the updated
row) and is unreachable against this repository. -/
def analyze_document (st : SysState) (b : BedrockState)
    (document_id : String) : SysState × Except SvcError Doc :=
  match DocumentRepository.get_by_id st.db document_id with
  | none => (st, .error (.notFoundError ("Document not found with id: " ++ document_id)))
  | some document =>
    match storageGet st.storage document.file_path with
    | none =>
      (st, .error (.fileStorageError ("Failed to read file from S3 (key=" ++ document.file_path ++ ")")))
    | some file_bytes =>
      match run_bedrock_analysis b file_bytes document.file_type document.filename with
      | .error e => (st, .error e)
      | .ok analysis_text =>
        if DocumentRepository.methodNames.contains "update" then
          let db2 := st.db.map (fun d =>
            if d.id == document_id then { d with analysis := some analysis_text } else d)
          match DocumentRepository.get_by_id db2 document_id with
          | some updated => ({ st with db := db2 }, .ok updated)
          | none => (st, .error (.notFoundError ("Document not found with id: " ++ document_id)))
        else
          (st, .error (.pyAttributeError "DocumentRepository object has no attribute update"))

/-- `get_document_url` (document_service.py lines 207-220): look the
record up, then ask for a presigned GET URL.  The storage contents are
never consulted. -/
def get_document_url (st : SysState) (presignGet : Except String String)
    (document_id : String) : Except SvcError String :=
  match get_document st.db document_id with
  | .error e => .error e
  | .ok _ =>
    match presignGet with
    | .ok url => .ok url
    | .error e => .error (.fileStorageError ("Failed to generate presigned download URL: " ++ e))

/-- `delete_document` (document_service.py lines 309-334): look the
record up, best-effort delete the storage object (S3 branch when a
bucket is configured, local branch otherwise; a failure is only logged),
then delete the row. -/
def delete_document (st : SysState) (uploads_bucket : String)
    (storageDeleteOk : Bool) (document_id : String) :
    SysState × Except SvcError Unit :=
  match get_document st.db document_id with
  | .error e => (st, .error e)
  | .ok document =>
    let storage2 :=
      if uploads_bucket = "" then
        if storageDeleteOk then storageDelete st.storage document.file_path
        else st.storage
      else
        if storageDeleteOk then storageDelete st.storage document.file_path
        else st.storage
    match DocumentRepository.delete st.db document_id with
    | (db2, true) => ({ storage := storage2, db := db2 }, .ok ())
    | (_, false) =>
      ({ st with storage := storage2 },
        .error (.notFoundError ("Document not found with id: " ++ document_id)))

/-- Whether a filename passes the extension allow-list test that both
upload modes perform (false also when the filename has no dot). -/
def extAllowed (filename : String) : Bool :=
  match get_file_extension filename with
  | .ok e => ALLOWED_EXTENSIONS.contains e
  | .error _ => false

/-! ### Helper lemmas -/

/-- `Char.ofNat` round-trips on valid code points. -/
theorem char_toNat_ofNat (n : Nat) (h : n < 55296) :
    (Char.ofNat n).toNat = n := by
  have hv : Nat.isValidChar n := Or.inl h
  simp only [Char.ofNat, hv, dif_pos, Char.ofNatAux, Char.toNat]
  simp [UInt32.toNat, BitVec.toNat_ofNatLt]

/-- Lowercasing a character twice equals lowercasing once. -/
theorem lowerChar_idem (c : Char) : lowerChar (lowerChar c) = lowerChar c := by
  unfold lowerChar
  by_cases h : 65 ≤ c.toNat ∧ c.toNat ≤ 90
  · have hlt : c.toNat + 32 < 55296 := by omega
    simp only [if_pos h, char_toNat_ofNat (c.toNat + 32) hlt]
    rw [if_neg]
    omega
  · simp only [if_neg h]

/-- `pyLower` is idempotent. -/
theorem pyLower_idem (s : String) : pyLower (pyLower s) = pyLower s := by
  simp [pyLower, List.map_map, Function.comp_def, lowerChar_idem]

/-- `pyLower` distributes over the dot prefix used by
`get_file_extension`. -/
theorem pyLower_dot (s : String) :
    pyLower ("." ++ s) = "." ++ pyLower s := by
  have : ("." ++ s).data = '.' :: s.data := by
    rw [String.data_append]; rfl
  simp only [pyLower, this, List.map_cons]
  have hdot : lowerChar '.' = '.' := by decide
  rw [hdot]
  rfl

/-- The extension produced by `get_file_extension` is already
lowercase, so the second `.lower()` in `validate_file` is the
identity. -/
theorem get_file_extension_lower_fix {fn e : String}
    (h : get_file_extension fn = .ok e) : pyLower e = e := by
  unfold get_file_extension at h
  by_cases hc : fn.data.contains '.'
  · rw [if_pos hc] at h
    cases h
    rw [pyLower_dot, pyLower_idem]
  · rw [if_neg hc] at h
    cases h

/-- A filename with an extension is nonempty. -/
theorem get_file_extension_ok_ne_empty {fn e : String}
    (h : get_file_extension fn = .ok e) : fn ≠ "" := by
  intro hfn
  subst hfn
  unfold get_file_extension at h
  have hc : ("" : String).data.contains '.' = false := by decide
  simp [hc] at h

/-- The service's `repository.create` call sites pass a `status` keyword
the repository method does not declare. -/
theorem create_kwargs_rejected :
    kwargsAccepted DocumentRepository.createParams serviceCreateKwargs = false := by
  decide

/-- The service's `analyze_ski_form` call site passes a `file_bytes`
keyword the Bedrock method does not declare. -/
theorem analyze_kwargs_rejected :
    kwargsAccepted analyzeSkiFormParams analyzeCallKwargs = false := by
  decide

/-- The repository defines no `update` method. -/
theorem no_update_method :
    DocumentRepository.methodNames.contains "update" = false := by
  decide

/-- Reading back a freshly written object yields the written bytes. -/
theorem storageGet_put (s : List (String × List Nat)) (k : String)
    (b : List Nat) : storageGet (storagePut s k b) k = some b := by
  simp [storageGet, storagePut]

/-- Deleting a freshly written object restores the original storage,
provided the key was not present before. -/
theorem storageDelete_put_fresh (s : List (String × List Nat)) (k : String)
    (b : List Nat) (h : ∀ kv ∈ s, kv.1 ≠ k) :
    storageDelete (storagePut s k b) k = s := by
  have h1 : s.eraseP (fun kv => kv.1 == k) = s :=
    List.eraseP_of_forall_not (by intro a ha; simp [h a ha])
  simp only [storageDelete, storagePut, h1]
  rw [List.eraseP_cons_of_pos (by simp)]

/-- After erasing the row with a given id from a table with no duplicate
ids, no row with that id remains. -/
theorem find_eraseP_of_nodup (db : List Doc) (id : String)
    (h : (db.map Doc.id).Nodup) :
    (db.eraseP (fun d => d.id == id)).find? (fun d => d.id == id) = none := by
  induction db with
  | nil => simp
  | cons d tl ih =>
    simp only [List.map_cons, List.nodup_cons] at h
    by_cases hd : d.id = id
    · rw [List.eraseP_cons_of_pos (by simp [hd])]
      apply List.find?_eq_none.mpr
      intro x hx
      simp only [beq_eq_false_iff_ne, ne_eq, Bool.not_eq_true, beq_iff_eq]
      intro hxid
      exact h.1 (List.mem_map.mpr ⟨x, hx, by rw [hxid, hd]⟩)
    · rw [List.eraseP_cons_of_neg (by simp [hd])]
      rw [List.find?_cons_of_neg _ (by simp [hd])]
      exact ih h.2

/-- Decidable equality of results, to evaluate the operations on
concrete inputs. -/
instance exceptDecEq {ε α : Type} [DecidableEq ε] [DecidableEq α] :
    DecidableEq (Except ε α) := fun a b =>
  match a, b with
  | .ok x, .ok y =>
    if h : x = y then .isTrue (by rw [h])
    else .isFalse (by intro hc; cases hc; exact h rfl)
  | .error x, .error y =>
    if h : x = y then .isTrue (by rw [h])
    else .isFalse (by intro hc; cases hc; exact h rfl)
  | .ok _, .error _ => .isFalse (by intro hc; cases hc)
  | .error _, .ok _ => .isFalse (by intro hc; cases hc)

/-! ### Claim theorems -/

/-- C1: the claim says that when every Analysis Adapter invocation
raises `AnalysisError`, or the adapter is unavailable, a direct upload
still returns a complete record with a degraded `analysisText` and never
propagates the error.  Against this code both hypothesis branches
falsify it at the concrete input (racer `r1`, valid file `run1.mp4`):
with the adapter unavailable the degraded text is computed, but the
record creation raises `TypeError` (unexpected `status` keyword) and the
upload raises `DocumentServiceError`; with an available adapter that
always raises, the call itself raises `TypeError` (the `file_bytes`
keyword does not exist on `analyze_ski_form`), which propagates to the
caller. -/
theorem uploadDocument_degradation_lost :
    (upload_document ⟨[], []⟩ ⟨true, true, true⟩ .unavailable "r1"
        ⟨"run1.mp4", "video/mp4", [1, 2, 3]⟩ "k1" "d1" 7
      = (⟨[], []⟩, .error (.documentServiceError RECORD_CREATE_ERROR_MSG)))
    ∧ ((upload_document ⟨[], []⟩ ⟨true, true, true⟩
        (.available (fun _ _ _ => .error "ThrottlingException")) "r1"
        ⟨"run1.mp4", "video/mp4", [1, 2, 3]⟩ "k1" "d1" 7).2
      = .error (.pyTypeError "analyze_ski_form() got an unexpected keyword argument file_bytes")) := by
  constructor
  · decide
  · rfl

/-- C2: the claim says `analyzeDocument` updates the record's
`analysisText` and flips its status to `complete`, returning the updated
record.  Against this code, with record `d1` present and its object
readable from storage, the analysis text is computed but the call
`self.repository.update(...)` raises `AttributeError` (the repository
class defines no `update` method, and the `Document` model has no
`status` column), so no record is updated and the error propagates.
The lookup and fetch halves of the claim do hold: an absent id raises
`NotFoundError` and a missing storage object raises the storage
error. -/
theorem analyzeDocument_update_attribute_error :
    (analyze_document
      ⟨[("documents/k1.mp4", [9, 9])],
       [⟨"d1", "r1", "run1.mp4", "documents/k1.mp4", "video/mp4", 2, none, 5⟩]⟩
      .unavailable "d1"
    = (⟨[("documents/k1.mp4", [9, 9])],
        [⟨"d1", "r1", "run1.mp4", "documents/k1.mp4", "video/mp4", 2, none, 5⟩]⟩,
       .error (.pyAttributeError "DocumentRepository object has no attribute update")))
    ∧ ((analyze_document
      ⟨[("documents/k1.mp4", [9, 9])],
       [⟨"d1", "r1", "run1.mp4", "documents/k1.mp4", "video/mp4", 2, none, 5⟩]⟩
      .unavailable "missing").2
    = .error (.notFoundError ("Document not found with id: " ++ "missing")))
    ∧ ((analyze_document
      ⟨[], [⟨"d1", "r1", "run1.mp4", "documents/k1.mp4", "video/mp4", 2, none, 5⟩]⟩
      .unavailable "d1").2
    = .error (.fileStorageError
        ("Failed to read file from S3 (key=" ++ "documents/k1.mp4" ++ ")"))) := by
  exact ⟨by decide, by decide, by decide⟩

/-- C3: the claim says `createUploadUrl` on valid metadata creates a
pending record and returns the `(uploadUrl, documentId, storageKey)`
triple.  Against this code, at the valid input (`run.mp4`, `video/mp4`,
1000 bytes, presigning succeeding), validation and presigned-URL
generation succeed but `repository.create(..., status="pending")` raises
`TypeError` (no `status` parameter; the model also has no `status`
column), wrapped into `DocumentServiceError`: no record is created and
no triple is returned. -/
theorem createUploadUrl_record_creation_fails :
    create_upload_url ⟨[], []⟩ (.ok "https://bucket.s3.put") "r1" "run.mp4"
      "video/mp4" 1000 "k1" "d1" 7
    = (⟨[], []⟩, .error (.documentServiceError RECORD_CREATE_ERROR_MSG)) := by
  decide

/-- A file that passes `validate_file` has a nonempty filename. -/
theorem validate_ok_filename_ne {file : UploadFile}
    (h : validate_file file = .ok ()) : ¬ (file.filename = "") := by
  intro hfn
  unfold validate_file at h
  rw [if_pos hfn] at h
  cases h

/-- Shared evaluation of the direct upload path up to the record
creation: when validation passes, the size is within the limit, the disk
write succeeds and Bedrock is unavailable (so the analysis degrades to
the placeholder), `upload_document` reaches the `repository.create` call,
which fails on the `status` keyword; the handler unlinks the stored file
when it can and raises `DocumentServiceError`. -/
theorem upload_document_record_branch (st : SysState) (o : DirectOracle)
    (racer_id : String) (file : UploadFile) (keyUuid docId : String)
    (now : Nat) (ext : String)
    (hval : validate_file file = .ok ())
    (hext : get_file_extension file.filename = .ok ext)
    (hsize : file.content.length ≤ MAX_FILE_SIZE)
    (hwrite : o.writeOk = true) :
    upload_document st o .unavailable racer_id file keyUuid docId now =
      (⟨(if o.unlinkOk then
          storageDelete
            (storagePut st.storage (LOCAL_UPLOAD_DIR ++ "/" ++ keyUuid ++ ext)
              file.content)
            (LOCAL_UPLOAD_DIR ++ "/" ++ keyUuid ++ ext)
        else
          storagePut st.storage (LOCAL_UPLOAD_DIR ++ "/" ++ keyUuid ++ ext)
            file.content),
        st.db⟩,
       .error (.documentServiceError RECORD_CREATE_ERROR_MSG)) := by
  have hfn := validate_ok_filename_ne hval
  unfold upload_document
  rw [if_neg hfn, hval, hext]
  simp only [run_bedrock_analysis]
  rw [if_neg (by omega : ¬ MAX_FILE_SIZE < file.content.length)]
  rw [if_neg (by simp [hwrite] : ¬ o.writeOk = false)]
  rw [if_neg (by simp [create_kwargs_rejected] :
    ¬ kwargsAccepted DocumentRepository.createParams serviceCreateKwargs = true)]

/-- C6: in direct mode, when the bytes were stored and the record
creation fails (which against this repository it always does, on the
`status` keyword), the orchestrator best-effort deletes the just-stored
object and raises the record error `DocumentServiceError`; when the
unlink itself fails, the error is still raised and the object stays.
And this is the only path that removes a pre-existing stored object:
any outcome other than the record error preserves every object that was
in storage before the call. -/
theorem record_failure_rollback (st : SysState) (o : DirectOracle)
    (racer_id : String) (file : UploadFile) (keyUuid docId : String)
    (now : Nat) (ext : String)
    (hval : validate_file file = .ok ())
    (hext : get_file_extension file.filename = .ok ext)
    (hsize : file.content.length ≤ MAX_FILE_SIZE)
    (hwrite : o.writeOk = true)
    (hfresh : ∀ kv ∈ st.storage, kv.1 ≠ LOCAL_UPLOAD_DIR ++ "/" ++ keyUuid ++ ext) :
    (o.unlinkOk = true →
      upload_document st o .unavailable racer_id file keyUuid docId now =
        (st, .error (.documentServiceError RECORD_CREATE_ERROR_MSG)))
    ∧ (o.unlinkOk = false →
      upload_document st o .unavailable racer_id file keyUuid docId now =
        (⟨storagePut st.storage (LOCAL_UPLOAD_DIR ++ "/" ++ keyUuid ++ ext)
            file.content, st.db⟩,
         .error (.documentServiceError RECORD_CREATE_ERROR_MSG)))
    ∧ (∀ (o2 : DirectOracle) (b2 : BedrockState) (st2 : SysState)
          (r : Except SvcError Doc),
        upload_document st o2 b2 racer_id file keyUuid docId now = (st2, r) →
        (∀ m, r ≠ .error (.documentServiceError m)) →
        ∀ kv ∈ st.storage, kv ∈ st2.storage) := by
  have hfn := validate_ok_filename_ne hval
  have herase : st.storage.eraseP
      (fun kv => kv.1 == LOCAL_UPLOAD_DIR ++ "/" ++ keyUuid ++ ext) = st.storage :=
    List.eraseP_of_forall_not (by
      intro a ha
      simpa using hfresh a ha)
  refine ⟨?_, ?_, ?_⟩
  · intro hu
    rw [upload_document_record_branch st o racer_id file keyUuid docId now ext
      hval hext hsize hwrite]
    rw [if_pos hu, storageDelete_put_fresh st.storage _ _ hfresh]
  · intro hu
    rw [upload_document_record_branch st o racer_id file keyUuid docId now ext
      hval hext hsize hwrite]
    rw [if_neg (by simp [hu])]
  · intro o2 b2 st2 r hrun hnotrec kv hkv
    unfold upload_document at hrun
    rw [if_neg hfn, hval, hext] at hrun
    dsimp only [] at hrun
    rw [if_neg (by omega : ¬ MAX_FILE_SIZE < file.content.length)] at hrun
    by_cases hw2 : o2.writeOk = false
    · rw [if_pos hw2] at hrun
      cases hrun
      exact hkv
    · rw [if_neg hw2] at hrun
      simp only [storagePut, herase] at hrun
      cases hb : run_bedrock_analysis b2
          (if o2.readBackOk = true then
            (storageGet
              ((LOCAL_UPLOAD_DIR ++ "/" ++ keyUuid ++ ext, file.content) ::
                st.storage)
              (LOCAL_UPLOAD_DIR ++ "/" ++ keyUuid ++ ext)).getD []
          else [])
          (if file.content_type = "" then "application/octet-stream"
            else file.content_type)
          file.filename with
      | error e =>
        rw [hb] at hrun
        cases hrun
        exact List.mem_cons_of_mem _ hkv
      | ok t =>
        rw [hb] at hrun
        dsimp only [] at hrun
        rw [if_neg (by simp [create_kwargs_rejected] :
          ¬ kwargsAccepted DocumentRepository.createParams serviceCreateKwargs = true)] at hrun
        cases hrun
        exact absurd rfl (hnotrec RECORD_CREATE_ERROR_MSG)

/-- Witness for C6 at a concrete input: storage holding an unrelated
object, a valid 3-byte `run1.mp4`, write and unlink succeeding. -/
theorem record_failure_rollback_witness :
    upload_document ⟨[("other", [1])], []⟩ ⟨true, true, true⟩ .unavailable
      "r1" ⟨"run1.mp4", "video/mp4", [1, 2, 3]⟩ "k9" "d9" 7 =
    (⟨[("other", [1])], []⟩,
     .error (.documentServiceError RECORD_CREATE_ERROR_MSG)) :=
  (record_failure_rollback ⟨[("other", [1])], []⟩ ⟨true, true, true⟩ "r1"
    ⟨"run1.mp4", "video/mp4", [1, 2, 3]⟩ "k9" "d9" 7 ".mp4"
    (by decide) (by decide) (by decide) rfl (by decide)).1 rfl

/-- Direct mode rejects a file whose actual byte count exceeds the
limit, before writing anything: the state is unchanged and the error is
a `ValidationError` naming the size. -/
theorem upload_document_size_reject (st : SysState) (o : DirectOracle)
    (b : BedrockState) (racer_id : String) (file : UploadFile)
    (keyUuid docId : String) (now : Nat) (ext : String)
    (hval : validate_file file = .ok ())
    (hext : get_file_extension file.filename = .ok ext)
    (hsize : MAX_FILE_SIZE < file.content.length) :
    upload_document st o b racer_id file keyUuid docId now =
      (st, .error (.validationError
        ("File size (" ++ toString file.content.length ++
          " bytes) exceeds the 50 MB limit."))) := by
  have hfn := validate_ok_filename_ne hval
  unfold upload_document
  rw [if_neg hfn, hval, hext]
  dsimp only []
  rw [if_pos hsize]

/-- C5: the claim says a file of exactly the configured maximum
(52428800 bytes) passes the size check and the upload succeeds, while
maximum+1 is rejected with `ValidationError`; direct mode checks the
actual byte count, presigned mode the declared size.  Against this code
the boundary checks behave exactly so (maximum passes the size check in
both modes, maximum+1 raises `ValidationError` in both), but the
"upload succeeds" half fails: both modes then die at record creation
with `DocumentServiceError`, because `repository.create` rejects the
`status` keyword.  So an upload of exactly the maximum size never
succeeds. -/
theorem size_boundary_behavior :
    ((upload_document ⟨[], []⟩ ⟨true, true, true⟩ .unavailable "r1"
        ⟨"run1.mp4", "video/mp4", List.replicate MAX_FILE_SIZE 0⟩ "k1" "d1" 7).2
      = .error (.documentServiceError RECORD_CREATE_ERROR_MSG))
    ∧ (upload_document ⟨[], []⟩ ⟨true, true, true⟩ .unavailable "r1"
        ⟨"run1.mp4", "video/mp4", List.replicate (MAX_FILE_SIZE + 1) 0⟩ "k1" "d1" 7
      = (⟨[], []⟩, .error (.validationError
          ("File size (" ++ toString (MAX_FILE_SIZE + 1) ++
            " bytes) exceeds the 50 MB limit."))))
    ∧ ((create_upload_url ⟨[], []⟩ (.ok "https://u") "r1" "run.mp4"
        "video/mp4" MAX_FILE_SIZE "k1" "d1" 7).2
      = .error (.documentServiceError RECORD_CREATE_ERROR_MSG))
    ∧ ((create_upload_url ⟨[], []⟩ (.ok "https://u") "r1" "run.mp4"
        "video/mp4" (MAX_FILE_SIZE + 1) "k1" "d1" 7).2
      = .error (.validationError
          ("File size (" ++ toString (MAX_FILE_SIZE + 1) ++
            " bytes) exceeds the 50 MB limit."))) := by
  refine ⟨?_, ?_, ?_, ?_⟩
  · rw [upload_document_record_branch ⟨[], []⟩ ⟨true, true, true⟩ "r1"
      ⟨"run1.mp4", "video/mp4", List.replicate MAX_FILE_SIZE 0⟩ "k1" "d1" 7
      ".mp4" (by decide) (by decide) (by simp) rfl]
  · rw [upload_document_size_reject ⟨[], []⟩ ⟨true, true, true⟩ .unavailable
      "r1" ⟨"run1.mp4", "video/mp4", List.replicate (MAX_FILE_SIZE + 1) 0⟩
      "k1" "d1" 7 ".mp4" (by decide) (by decide) (by simp)]
    simp
  · decide
  · decide

/-- C4: for every filename whose extension is not allow-listed
(including filenames with no dot), both upload modes reject with
`ValidationError` and return the state unchanged: no storage write, no
record creation, no orphaned object or record. -/
theorem validation_failure_no_side_effects (st : SysState)
    (o : DirectOracle) (b : BedrockState) (presign : Except String String)
    (racer_id file_type : String) (file_size : Nat) (keyUuid docId : String)
    (now : Nat) (file : UploadFile)
    (hext : extAllowed file.filename = false) :
    (∃ m, upload_document st o b racer_id file keyUuid docId now
      = (st, .error (.validationError m)))
    ∧ (∃ m, create_upload_url st presign racer_id file.filename file_type
        file_size keyUuid docId now
      = (st, .error (.validationError m))) := by
  by_cases hc : file.filename.data.contains '.' = true
  · have h : get_file_extension file.filename =
        .ok ("." ++ pyLower (extAfterLastDot file.filename)) := by
      unfold get_file_extension
      rw [if_pos hc]
    have hlow : pyLower ("." ++ pyLower (extAfterLastDot file.filename)) =
        "." ++ pyLower (extAfterLastDot file.filename) :=
      get_file_extension_lower_fix h
    have hA : ALLOWED_EXTENSIONS.contains
        ("." ++ pyLower (extAfterLastDot file.filename)) = false := by
      unfold extAllowed at hext
      rw [h] at hext
      exact hext
    have hfn := get_file_extension_ok_ne_empty h
    constructor
    · refine ⟨"File type " ++ ("." ++ pyLower (extAfterLastDot file.filename)) ++
        " is not allowed", ?_⟩
      have hvf : validate_file file = .error (.validationError
          ("File type " ++ ("." ++ pyLower (extAfterLastDot file.filename)) ++
            " is not allowed")) := by
        unfold validate_file
        rw [if_neg hfn, h]
        dsimp only []
        rw [hlow, if_pos hA]
      unfold upload_document
      rw [if_neg hfn, hvf]
    · refine ⟨"File type " ++ ("." ++ pyLower (extAfterLastDot file.filename)) ++
        " is not allowed", ?_⟩
      unfold create_upload_url
      rw [h]
      dsimp only []
      rw [if_pos hA]
  · have h : get_file_extension file.filename = .error (.validationError
        ("Filename " ++ file.filename ++ " has no extension")) := by
      unfold get_file_extension
      rw [if_neg hc]
    constructor
    · by_cases hfn : file.filename = ""
      · exact ⟨"No file provided for upload", by
          unfold upload_document
          rw [if_pos hfn]⟩
      · refine ⟨"Filename " ++ file.filename ++ " has no extension", ?_⟩
        have hvf : validate_file file = .error (.validationError
            ("Filename " ++ file.filename ++ " has no extension")) := by
          unfold validate_file
          rw [if_neg hfn, h]
        unfold upload_document
        rw [if_neg hfn, hvf]
    · refine ⟨"Filename " ++ file.filename ++ " has no extension", ?_⟩
      unfold create_upload_url
      rw [h]

/-- Witness for C4: a text file is rejected by both modes with the
state (one unrelated object, one unrelated record) left exactly as it
was. -/
theorem validation_failure_no_side_effects_witness :
    (∃ m, upload_document
        ⟨[("o1", [5])], [⟨"d0", "r0", "a.png", "o1", "image/png", 1, none, 3⟩]⟩
        ⟨true, true, true⟩ .unavailable "r1" ⟨"notes.txt", "text/plain", [1]⟩
        "k1" "d1" 7
      = (⟨[("o1", [5])], [⟨"d0", "r0", "a.png", "o1", "image/png", 1, none, 3⟩]⟩,
         .error (.validationError m)))
    ∧ (∃ m, create_upload_url
        ⟨[("o1", [5])], [⟨"d0", "r0", "a.png", "o1", "image/png", 1, none, 3⟩]⟩
        (.ok "https://u") "r1" "notes.txt" "text/plain" 1 "k1" "d1" 7
      = (⟨[("o1", [5])], [⟨"d0", "r0", "a.png", "o1", "image/png", 1, none, 3⟩]⟩,
         .error (.validationError m))) :=
  validation_failure_no_side_effects
    ⟨[("o1", [5])], [⟨"d0", "r0", "a.png", "o1", "image/png", 1, none, 3⟩]⟩
    ⟨true, true, true⟩ .unavailable (.ok "https://u") "r1" "text/plain" 1
    "k1" "d1" 7 ⟨"notes.txt", "text/plain", [1]⟩ (by decide)

/-- C7: `delete_document` on an existing record succeeds, attempting
the storage deletion first (and proceeding identically whether or not
the storage delete succeeded); afterwards `get_document` raises
`NotFoundError` for that id and no list for any racer contains it.  The
storage is only changed by the attempted object deletion. -/
theorem delete_is_authoritative (st : SysState) (uploads_bucket : String)
    (delOk : Bool) (document_id : String) (document : Doc)
    (hnodup : (st.db.map Doc.id).Nodup)
    (hfound : DocumentRepository.get_by_id st.db document_id = some document) :
    ((delete_document st uploads_bucket delOk document_id).2 = .ok ())
    ∧ (get_document (delete_document st uploads_bucket delOk document_id).1.db
        document_id
      = .error (.notFoundError ("Document not found with id: " ++ document_id)))
    ∧ (∀ (racer_id : String) (d : Doc),
        d ∈ get_documents
          (delete_document st uploads_bucket delOk document_id).1.db racer_id →
        d.id ≠ document_id)
    ∧ ((delete_document st uploads_bucket delOk document_id).1.storage
      = if delOk then storageDelete st.storage document.file_path
        else st.storage) := by
  have hgd : get_document st.db document_id = .ok document := by
    unfold get_document
    rw [hfound]
  have hdel : DocumentRepository.delete st.db document_id =
      (st.db.eraseP (fun d => d.id == document_id), true) := by
    unfold DocumentRepository.delete
    rw [hfound]
  have heval : delete_document st uploads_bucket delOk document_id =
      (⟨if delOk then storageDelete st.storage document.file_path
          else st.storage,
        st.db.eraseP (fun d => d.id == document_id)⟩, .ok ()) := by
    unfold delete_document
    rw [hgd]
    dsimp only []
    rw [hdel, ite_self]
  have hnone : (st.db.eraseP (fun d => d.id == document_id)).find?
      (fun d => d.id == document_id) = none :=
    find_eraseP_of_nodup st.db document_id hnodup
  refine ⟨by rw [heval], ?_, ?_, by rw [heval]⟩
  · rw [heval]
    unfold get_document DocumentRepository.get_by_id
    rw [hnone]
  · intro racer_id d hd hid
    rw [heval] at hd
    unfold get_documents DocumentRepository.get_by_racer at hd
    rw [List.mem_insertionSort] at hd
    have hmem := (List.mem_filter.mp hd).1
    have := List.find?_eq_none.mp hnone d hmem
    simp [hid] at this

/-- Witness for C7: one record, deleted with the storage delete
failing; the record is gone anyway. -/
theorem delete_is_authoritative_witness :
    ((delete_document
        ⟨[("documents/k1.mp4", [9])],
         [⟨"d1", "r1", "run1.mp4", "documents/k1.mp4", "video/mp4", 1, none, 5⟩]⟩
        "" false "d1").2 = .ok ())
    ∧ (get_document (delete_document
        ⟨[("documents/k1.mp4", [9])],
         [⟨"d1", "r1", "run1.mp4", "documents/k1.mp4", "video/mp4", 1, none, 5⟩]⟩
        "" false "d1").1.db "d1"
      = .error (.notFoundError ("Document not found with id: " ++ "d1"))) :=
  ⟨(delete_is_authoritative
      ⟨[("documents/k1.mp4", [9])],
       [⟨"d1", "r1", "run1.mp4", "documents/k1.mp4", "video/mp4", 1, none, 5⟩]⟩
      "" false "d1"
      ⟨"d1", "r1", "run1.mp4", "documents/k1.mp4", "video/mp4", 1, none, 5⟩
      (by decide) (by decide)).1,
   (delete_is_authoritative
      ⟨[("documents/k1.mp4", [9])],
       [⟨"d1", "r1", "run1.mp4", "documents/k1.mp4", "video/mp4", 1, none, 5⟩]⟩
      "" false "d1"
      ⟨"d1", "r1", "run1.mp4", "documents/k1.mp4", "video/mp4", 1, none, 5⟩
      (by decide) (by decide)).2.1⟩

/-- C8: for every owner, `get_documents` returns exactly the owner's
rows (a permutation of the filter of the table by `racer_id`), sorted by
upload timestamp in descending order. -/
theorem listDocuments_sorted_desc (db : List Doc) (racer_id : String) :
    List.Sorted uploadedDesc (get_documents db racer_id)
    ∧ List.Perm (get_documents db racer_id)
        (db.filter (fun d => d.racer_id == racer_id)) :=
  ⟨List.sorted_insertionSort uploadedDesc _,
   List.perm_insertionSort uploadedDesc _⟩

/-- C9: validation never cross-checks the filename extension against the
declared MIME type: any pair with an individually allow-listed extension
and an individually allow-listed (or alias) MIME type passes validation
in both modes, mismatched or not.  In presigned mode this is expressed
as: within the size limit, the result is never a `ValidationError`. -/
theorem no_extension_mime_cross_check (fn ct : String) (content : List Nat)
    (ext : String)
    (hext : get_file_extension fn = .ok ext)
    (hA : ALLOWED_EXTENSIONS.contains ext = true)
    (hct : (allowedTypeKeys.contains (pyLower ct)
        || BROWSER_CT_VARIANTS.contains (pyLower ct)) = true) :
    validate_file ⟨fn, ct, content⟩ = .ok ()
    ∧ ∀ (st : SysState) (presign : Except String String)
        (racer_id keyUuid docId : String) (file_size now : Nat),
        file_size ≤ MAX_FILE_SIZE →
        ∀ m, (create_upload_url st presign racer_id fn ct file_size keyUuid
          docId now).2 ≠ .error (.validationError m) := by
  have hfn : ¬ fn = "" := get_file_extension_ok_ne_empty hext
  have hlow : pyLower ext = ext := get_file_extension_lower_fix hext
  constructor
  · unfold validate_file
    rw [if_neg hfn, hext]
    dsimp only []
    rw [hlow, if_neg (by rw [hA]; simp)]
    by_cases hce : ct = ""
    · rw [if_pos hce]
    · rw [if_neg hce]
      cases hb : allowedTypeKeys.contains (pyLower ct) with
      | true => rfl
      | false =>
        have hb2 : BROWSER_CT_VARIANTS.contains (pyLower ct) = true := by
          rw [hb] at hct
          simpa using hct
        rw [if_neg (by simp), if_pos hb2]
  · intro st presign racer_id keyUuid docId file_size now hsize m
    unfold create_upload_url
    rw [hext]
    dsimp only []
    rw [if_neg (by rw [hA]; simp), if_neg (by rw [hct]; simp),
      if_neg (by omega : ¬ MAX_FILE_SIZE < file_size)]
    cases presign with
    | error e => simp
    | ok u =>
      dsimp only []
      rw [if_neg (by simp [create_kwargs_rejected] :
        ¬ kwargsAccepted DocumentRepository.createParams serviceCreateKwargs = true)]
      simp

/-- Witness for C9: the mismatched pair of a video filename `run.mp4`
and the declared image type `image/png` is accepted by both modes. -/
theorem no_extension_mime_cross_check_witness :
    validate_file ⟨"run.mp4", "image/png", []⟩ = .ok ()
    ∧ (create_upload_url ⟨[], []⟩ (.ok "https://u") "r1" "run.mp4"
        "image/png" 1000 "k1" "d1" 7).2 ≠ .error (.validationError "m") := by
  have h := no_extension_mime_cross_check "run.mp4" "image/png" [] ".mp4"
    (by decide) (by decide) (by decide)
  exact ⟨h.1, h.2 ⟨[], []⟩ (.ok "https://u") "r1" "k1" "d1" 1000 7
    (by decide) "m"⟩

/-- C10: for every existing record — pending ones with no stored object
included — `get_document_url` returns the presigned GET URL without
consulting the storage contents (the model has no status column, so no
status check is even possible); a `FileStorageError` arises only when
the URL-generation call itself fails, and `NotFoundError` only when the
record is absent. -/
theorem getDocumentUrl_no_storage_check (st : SysState)
    (presignGet : Except String String) (document_id : String)
    (document : Doc)
    (hfound : DocumentRepository.get_by_id st.db document_id = some document) :
    (∀ url, presignGet = .ok url →
      get_document_url st presignGet document_id = .ok url)
    ∧ (∀ e, presignGet = .error e →
      get_document_url st presignGet document_id
        = .error (.fileStorageError
            ("Failed to generate presigned download URL: " ++ e)))
    ∧ (∀ storage2 : List (String × List Nat),
      get_document_url ⟨storage2, st.db⟩ presignGet document_id
        = get_document_url st presignGet document_id)
    ∧ (∀ st2 : SysState,
      DocumentRepository.get_by_id st2.db document_id = none →
      get_document_url st2 presignGet document_id
        = .error (.notFoundError ("Document not found with id: " ++ document_id))) := by
  have hgd : get_document st.db document_id = .ok document := by
    unfold get_document
    rw [hfound]
  refine ⟨?_, ?_, ?_, ?_⟩
  · intro url hu
    unfold get_document_url
    rw [hgd, hu]
  · intro e he
    unfold get_document_url
    rw [hgd, he]
  · intro storage2
    rfl
  · intro st2 hnone
    unfold get_document_url get_document
    rw [hnone]

/-- Witness for C10: a pending-style record (null analysis) whose
object was never uploaded (empty storage) still yields a presigned
URL. -/
theorem getDocumentUrl_no_storage_check_witness :
    get_document_url
      ⟨[], [⟨"d1", "r1", "run1.mp4", "documents/k1.mp4", "video/mp4", 1, none, 5⟩]⟩
      (.ok "https://signed.get") "d1" = .ok "https://signed.get" :=
  (getDocumentUrl_no_storage_check
    ⟨[], [⟨"d1", "r1", "run1.mp4", "documents/k1.mp4", "video/mp4", 1, none, 5⟩]⟩
    (.ok "https://signed.get") "d1"
    ⟨"d1", "r1", "run1.mp4", "documents/k1.mp4", "video/mp4", 1, none, 5⟩
    (by decide)).1 "https://signed.get" rfl
